import Mathlib

/-!
Verification of the records-front client (session/auth lifecycle and view-state
synchronization) against its natural-language specification.

The JavaScript sources are shallowly embedded: React state hooks become fields
of an explicit `AppState`; every `setX(...)` call and every API invocation made
by a handler is recorded, in source order, as an event of type `Ev`, so each
handler is a function from its inputs (current state plus the outcomes of the
network calls it performs) to the list of events it emits.  `run` folds a list
of events over a state, yielding the state after the handler completes.  The
request wrapper and the unauthorized-event bus of `api.js` are embedded as pure
functions over an explicit store and handler list.  Times (`Date.now()`,
cooldown deadlines, JWT expiries) are `Int` milliseconds.
-/

namespace RecordsFront

/-- A server entry (record or shortcut): `{id, text, tsUtc}`. -/
structure Entry where
  id : String
  text : String
  tsUtc : String
deriving DecidableEq, Repr

/-- The API calls the client can issue (the `api` object of `api.js`). -/
inductive ApiCall where
  | login (username password : String)
  | requestTelegramCode (pin : String)
  | verifyTelegramCode (code : String)
  | listRecords
  | createRecord (text : String)
  | updateRecord (id text : String)
  | deleteRecord (id : String)
  | listShortcuts
  | createShortcut (text : String)
  | updateShortcut (id text : String)
  | deleteShortcut (id : String)
deriving DecidableEq, Repr

/-- Does a call read or mutate the shortcuts collection? -/
def ApiCall.touchesShortcuts : ApiCall → Bool
  | .listShortcuts => true
  | .createShortcut _ => true
  | .updateShortcut _ _ => true
  | .deleteShortcut _ => true
  | _ => false

/-- One primitive effect of a handler, in source order: a React state-setter
call, a durable-storage write, or an API call being issued. -/
inductive Ev where
  | clearTokenS
  | setTokenS (t : String)
  | setApiUrlS (u : String)
  | setTokenState (t : String)
  | setLoading (b : Bool)
  | setError (m : String)
  | setApiUrlState (u : String)
  | setUsername (v : String)
  | setPassword (v : String)
  | setTgPin (v : String)
  | setTgCode (v : String)
  | setTgInfo (v : String)
  | setTgStep (v : String)
  | setTgCooldownUntilMs (v : Int)
  | setTgCooldownLeftSec (v : Nat)
  | setRecords (l : List Entry)
  | setShortcuts (l : List Entry)
  | setNewRecordText (v : String)
  | setNewShortcutText (v : String)
  | setEditingType (v : String)
  | setEditingId (v : String)
  | setEditingText (v : String)
  | setShouldRefocus (v : String)
  | call (c : ApiCall)
deriving DecidableEq, Repr

/-- Is the event an API call being issued? -/
def Ev.isCall : Ev → Bool
  | .call _ => true
  | _ => false

/-- The in-memory state of `App` (its React `useState` hooks) together with the
two durable-storage cells of `api.js` (token and API base URL). -/
structure AppState where
  storedToken : String := ""
  storedApiUrl : String := ""
  token : String := ""
  loading : Bool := false
  error : String := ""
  apiUrl : String := ""
  username : String := ""
  password : String := ""
  tgPin : String := ""
  tgCode : String := ""
  tgInfo : String := ""
  tgStep : String := "pin"
  tgCooldownUntilMs : Int := 0
  tgCooldownLeftSec : Nat := 0
  records : List Entry := []
  shortcuts : List Entry := []
  newRecordText : String := ""
  newShortcutText : String := ""
  editingType : String := ""
  editingId : String := ""
  editingText : String := ""
  shouldRefocus : String := ""
deriving Repr

/-- Apply one event to the state. -/
def applyEv (s : AppState) : Ev → AppState
  | .clearTokenS => { s with storedToken := "" }
  | .setTokenS t => { s with storedToken := t }
  | .setApiUrlS u => { s with storedApiUrl := u }
  | .setTokenState t => { s with token := t }
  | .setLoading b => { s with loading := b }
  | .setError m => { s with error := m }
  | .setApiUrlState u => { s with apiUrl := u }
  | .setUsername v => { s with username := v }
  | .setPassword v => { s with password := v }
  | .setTgPin v => { s with tgPin := v }
  | .setTgCode v => { s with tgCode := v }
  | .setTgInfo v => { s with tgInfo := v }
  | .setTgStep v => { s with tgStep := v }
  | .setTgCooldownUntilMs v => { s with tgCooldownUntilMs := v }
  | .setTgCooldownLeftSec v => { s with tgCooldownLeftSec := v }
  | .setRecords l => { s with records := l }
  | .setShortcuts l => { s with shortcuts := l }
  | .setNewRecordText v => { s with newRecordText := v }
  | .setNewShortcutText v => { s with newShortcutText := v }
  | .setEditingType v => { s with editingType := v }
  | .setEditingId v => { s with editingId := v }
  | .setEditingText v => { s with editingText := v }
  | .setShouldRefocus v => { s with shouldRefocus := v }
  | .call _ => s

/-- Run a list of events over a state. -/
def run (s : AppState) (t : List Ev) : AppState := t.foldl applyEv s

/-- The API calls issued in a trace, in order. -/
def callsOf (t : List Ev) : List ApiCall :=
  t.filterMap fun e => match e with
    | .call c => some c
    | _ => none

/-- `isLogged = Boolean(token)`. -/
def isLogged (s : AppState) : Bool := s.token != ""

-- -------------------- String helpers from the source --------------------

/-- Whitespace as matched by `\s` and by `String.prototype.trim`, modelled on
the ASCII range (the exotic Unicode space characters are not modelled). -/
def jsSpace (c : Char) : Bool :=
  c = ' ' || c = '\t' || c = '\n' || c = '\r' || c.val = 11 || c.val = 12

/-- `s.trim()`: drop whitespace from both ends. -/
def jsTrim (s : String) : String :=
  String.mk (((s.data.dropWhile jsSpace).reverse.dropWhile jsSpace).reverse)

/-- `String(url || "").trim().replace(/\/+$/, "")` in `setApiUrl`: trim, then
strip every trailing slash. -/
def normalizeApiUrl (url : String) : String :=
  String.mk ((((url.data.dropWhile jsSpace).reverse.dropWhile jsSpace).dropWhile
    (fun c => c = '/')).reverse)

/-- A character matched by `.` in a JavaScript regex without the `s` flag
(anything except the four line terminators). -/
def jsDot (c : Char) : Bool :=
  c.val != 10 && c.val != 13 && c.val != 0x2028 && c.val != 0x2029

/-- Case-insensitive check that `s` begins with the (lowercase, ASCII)
pattern `pat`. -/
def beginsCaseless : List Char → List Char → Bool
  | [], _ => true
  | _ :: _, [] => false
  | p :: ps, c :: cs => p = c.toLower && beginsCaseless ps cs

/-- `.+` after the scheme: at least one character matched by `.`. -/
def dotPlus : List Char → Bool
  | [] => false
  | c :: _ => jsDot c

/-- The test `/^https?:\/\/.+/i.test(u)` guarding every login path. -/
def urlSchemeOk (u : String) : Bool :=
  if beginsCaseless "https://".data u.data then dotPlus (u.data.drop 8)
  else if beginsCaseless "http://".data u.data then dotPlus (u.data.drop 7)
  else false

/-- Digits of a digit run, as a number (`Number(m[1])`). -/
def digitsToNat (ds : List Char) : Nat :=
  ds.foldl (fun acc c => acc * 10 + (c.toNat - 48)) 0

/-- Try the regex `(\d+)\s*s` (case-insensitive) anchored at the head of the
character list: a maximal digit run, optional whitespace, then `s`/`S`. -/
def matchWaitAt (cs : List Char) : Option Nat :=
  let ds := cs.takeWhile Char.isDigit
  if ds.isEmpty then none
  else
    match (cs.drop ds.length).dropWhile jsSpace with
    | 's' :: _ => some (digitsToNat ds)
    | 'S' :: _ => some (digitsToNat ds)
    | _ => none

/-- Leftmost match of `(\d+)\s*s/i`, scanning positions left to right. -/
def scanWait : List Char → Nat
  | [] => 0
  | c :: rest =>
    match matchWaitAt (c :: rest) with
    | some n => n
    | none => scanWait rest

/-- `parseWaitSecondsFromMessage`: first `(\d+)\s*s/i` match in the message,
`0` when there is none (the JS also returns `0` then). -/
def parseWaitSecondsFromMessage (msg : String) : Nat :=
  scanWait msg.data

/-- `e?.message || "Error"` in the request-code catch clause. -/
def msgOrError (m : String) : String := if m = "" then "Error" else m

/-- The cooldown tick: `Math.max(0, Math.ceil((untilMs - now) / 1000))`. -/
def cooldownTick (untilMs now : Int) : Int :=
  max 0 ((untilMs - now + 999) / 1000)

/-- `tgSendDisabled = loading || !tgPin.trim() || tgCooldownUntilMs > Date.now()`. -/
def tgSendDisabled (s : AppState) (now : Int) : Bool :=
  s.loading || jsTrim s.tgPin == "" || decide (now < s.tgCooldownUntilMs)

-- -------------------- api.js: unauthorized-event bus --------------------

/-- A subscriber of the unauthorized-event bus.  `id` stands for the callback's
identity (JS compares subscribers by reference); `throws` says whether calling
it raises an exception. -/
structure Handler where
  id : Nat
  throws : Bool
deriving DecidableEq, Repr

/-- Calling a subscriber with a message: its own outcome. -/
def invokeHandler (h : Handler) (_msg : String) : Except String Unit :=
  if h.throws then .error "subscriber exception" else .ok ()

/-- `onUnauthorized(fn)`: `unauthorizedHandlers.push(fn)`. -/
def onUnauthorized (handlers : List Handler) (fn : Handler) : List Handler :=
  handlers ++ [fn]

/-- The unsubscribe closure returned by `onUnauthorized`:
`unauthorizedHandlers = unauthorizedHandlers.filter((h) => h !== fn)`. -/
def unsubscribe (handlers : List Handler) (fn : Handler) : List Handler :=
  handlers.filter fun h => h ≠ fn

/-- `notifyUnauthorized(message)`: `forEach` over the subscribers, each call
wrapped in a try/catch whose catch clause is a no-op.  The result is either an
exception escaping the loop, or the log of invocations actually made: which
subscriber, with which message, and that call's own outcome. -/
def notifyUnauthorized :
    List Handler → String → Except String (List (Handler × String × Except String Unit))
  | [], _ => .ok []
  | h :: rest, msg =>
    let r := invokeHandler h msg
    match notifyUnauthorized rest msg with
    | .ok log => .ok ((h, msg, r) :: log)
    | .error e => .error e

-- -------------------- api.js: request wrapper --------------------

/-- The slice of a JSON response body the wrapper inspects: its `error` field. -/
structure RespData where
  error : Option String
deriving DecidableEq, Repr

/-- An HTTP response as seen by `request`: the status code, whether the
content-type includes `application/json`, and the parse result of the body
(`none` when parsing failed, i.e. `data` becomes `null`). -/
structure HttpResponse where
  status : Nat
  contentTypeJson : Bool
  body : Option RespData
deriving DecidableEq, Repr

/-- The durable-storage cells `request` reads and writes. -/
structure Store where
  storedToken : String
  storedApiUrl : String
deriving DecidableEq, Repr

/-- How `request` ends: resolving with the parsed data, or throwing. -/
inductive ReqOutcome where
  | ok (data : Option RespData)
  | thrown (msg : String)
deriving DecidableEq, Repr

/-- `data?.error || dflt`: the `error` field when it is a nonempty string,
otherwise the default (an empty string is falsy in JS). -/
def jsOrDefault (o : Option String) (dflt : String) : String :=
  match o with
  | some e => if e = "" then dflt else e
  | none => dflt

/-- `data?.error` of the decoded body. -/
def dataError (data : Option RespData) : Option String := data.bind (·.error)

/-- `res.ok`: status in the 200–299 range. -/
def resOk (status : Nat) : Bool := 200 ≤ status && status ≤ 299

/-- The `request` helper of `api.js` (part_000): requires a stored API URL,
decodes the JSON body when the content-type matches, and on status 401 clears
the stored token, notifies the unauthorized bus with `data?.error ||
"Token inválido o caducado."`, and throws that message; on any other non-2xx
status it throws `data?.error || "Error HTTP <status>"` without touching the
token or the bus.  Returns the store afterwards, the bus-invocation log, and
the call's outcome. -/
def request (st : Store) (handlers : List Handler) (resp : HttpResponse) :
    Store × List (Handler × String × Except String Unit) × ReqOutcome :=
  if st.storedApiUrl = "" then
    (st, [], .thrown "Falta la URL de la API.")
  else
    let data := if resp.contentTypeJson then resp.body else none
    if resp.status = 401 then
      let msg := jsOrDefault (dataError data) "Token inválido o caducado."
      let st' := { st with storedToken := "" }
      match notifyUnauthorized handlers msg with
      | .ok log => (st', log, .thrown msg)
      | .error _ => (st', [], .thrown msg)
    else if resOk resp.status then
      (st, [], .ok data)
    else
      (st, [], .thrown (jsOrDefault (dataError data) ("Error HTTP " ++ toString resp.status)))

-- -------------------- App.jsx: JWT expiry watchdog --------------------

/-- The decoded JWT payload, to the extent the app reads it: its `exp` claim
in seconds (absent when the payload has no `exp` field). -/
structure JwtPayload where
  exp : Option Int
deriving DecidableEq, Repr

/-- Accumulating worker for `splitDots`. -/
def splitDotsAux : List Char → List Char → List String
  | [], acc => [String.mk acc.reverse]
  | c :: rest, acc =>
    if c = '.' then String.mk acc.reverse :: splitDotsAux rest []
    else splitDotsAux rest (c :: acc)

/-- `token.split(".")`: the segments between the dots (empty segments kept,
one empty segment for the empty string). -/
def splitDots (s : String) : List String := splitDotsAux s.data []

/-- `decodeJwtPayload(token)`: split on `"."`, take the second segment, then
base64-decode and `JSON.parse` it.  The base64/JSON step is the `parse`
argument (returning `none` where the JS catches and returns `null`). -/
def decodeJwtPayload (parse : String → Option JwtPayload) (token : String) :
    Option JwtPayload :=
  match (splitDots token)[1]? with
  | none => none
  | some seg => if seg = "" then none else parse seg

/-- `getJwtExpMs(token)`: `null` unless the payload has a truthy `exp`
(so `exp = 0` yields `null` too), else `exp * 1000`. -/
def getJwtExpMs (parse : String → Option JwtPayload) (token : String) : Option Int :=
  match decodeJwtPayload parse token with
  | none => none
  | some p =>
    match p.exp with
    | none => none
    | some e => if e = 0 then none else some (e * 1000)

/-- The expiry effect in `App`: with no token, or no decodable truthy `exp`,
no timer is armed; otherwise one `setTimeout` is armed with delay
`Math.max(0, expMs - Date.now() - 5000)`.  The result is that delay. -/
def expiryEffect (parse : String → Option JwtPayload) (token : String) (now : Int) :
    Option Int :=
  if token = "" then none
  else
    match getJwtExpMs parse token with
    | none => none
    | some expMs => some (max 0 (expMs - now - 5000))

-- -------------------- App.jsx: logout --------------------

/-- `doLogout(message)`: clear the stored token and every piece of in-memory
UI state, in source order. -/
def doLogout (message : String) : List Ev :=
  [ .clearTokenS, .setTokenState "", .setError message,
    .setUsername "", .setPassword "",
    .setTgPin "", .setTgCode "", .setTgInfo "", .setTgStep "pin",
    .setTgCooldownUntilMs 0, .setTgCooldownLeftSec 0,
    .setRecords [], .setShortcuts [],
    .setEditingType "", .setEditingId "", .setEditingText "",
    .setNewRecordText "", .setNewShortcutText "", .setShouldRefocus "" ]

/-- The `handleLogout` click handler: `doLogout("")`. -/
def handleLogout : List Ev := doLogout ""

/-- The unauthorized-event subscription of `App`:
`doLogout(msg || "Sesión caducada. Vuelve a entrar.")`. -/
def unauthorizedLogout (msg : String) : List Ev :=
  doLogout (if msg = "" then "Sesión caducada. Vuelve a entrar." else msg)

/-- The expiry timer's callback: `doLogout("Sesión caducada. Vuelve a entrar.")`. -/
def expiryFire : List Ev := doLogout "Sesión caducada. Vuelve a entrar."

-- -------------------- App.jsx: async handlers as traces --------------------

/-- A `try` block's effect: the events it emitted, and the exception (message)
escaping it, if any. -/
abbrev Body := List Ev × Option String

/-- The common shape `setError(""); [setTgInfo("");] setLoading(true); try
... catch (e) setError(e.message); finally setLoading(false)` shared by the
handlers of `App.jsx`.  `clearInfo` is true for `handleLoginPassword`, which
also clears the info line up front. -/
def withBusy (clearInfo : Bool) (body : Body) : List Ev :=
  [Ev.setError ""] ++ (if clearInfo then [Ev.setTgInfo ""] else []) ++
  [Ev.setLoading true] ++ body.1 ++
  (match body.2 with
   | some m => [Ev.setError m]
   | none => []) ++
  [Ev.setLoading false]

/-- The outcome of a list fetch: the server's array field (absent modelled as
`none`, the code then uses `|| []`), or a rejection message. -/
abbrev ListRes := Except String (Option (List Entry))

/-- `loadRecords()`: `api.listRecords()` then `setRecords(records || [])`;
a rejection propagates to the caller. -/
def loadRecords (res : ListRes) : Body :=
  (Ev.call .listRecords ::
    (match res with
     | .ok l => [Ev.setRecords (l.getD [])]
     | .error _ => []),
   match res with
   | .ok _ => none
   | .error m => some m)

/-- `loadShortcuts()`: `api.listShortcuts()` then `setShortcuts(shortcuts || [])`. -/
def loadShortcuts (res : ListRes) : Body :=
  (Ev.call .listShortcuts ::
    (match res with
     | .ok l => [Ev.setShortcuts (l.getD [])]
     | .error _ => []),
   match res with
   | .ok _ => none
   | .error m => some m)

/-- `cancelEdit()`. -/
def cancelEdit : List Ev :=
  [.setEditingType "", .setEditingId "", .setEditingText ""]

/-- The `try` block of `handleLoginPassword`: store the normalized URL, check
its scheme, call `api.login`, then persist the token and clear the password. -/
def handleLoginPasswordBody (s : AppState) (loginRes : Except String String) : Body :=
  let normalized := normalizeApiUrl s.apiUrl
  if ¬ urlSchemeOk normalized then
    ([Ev.setApiUrlS normalized], some "La URL de la API debe empezar por http:// o https://")
  else
    match loginRes with
    | .error m => ([Ev.setApiUrlS normalized, Ev.call (.login s.username s.password)], some m)
    | .ok tok =>
      ([Ev.setApiUrlS normalized, Ev.call (.login s.username s.password),
        Ev.setTokenS tok, Ev.setTokenState tok, Ev.setPassword ""], none)

/-- `handleLoginPassword` (it clears `tgInfo` alongside the error up front). -/
def handleLoginPassword (s : AppState) (loginRes : Except String String) : List Ev :=
  withBusy true (handleLoginPasswordBody s loginRes)

/-- The `try` block of `handleLoginTelegram`: store the normalized URL, check
its scheme, verify the trimmed code, then persist the token, clear the code
and info line, and reset the sub-flow to the pin step. -/
def handleLoginTelegramBody (s : AppState) (verifyRes : Except String String) : Body :=
  let normalized := normalizeApiUrl s.apiUrl
  if ¬ urlSchemeOk normalized then
    ([Ev.setApiUrlS normalized], some "La URL de la API debe empezar por http:// o https://")
  else
    let code := jsTrim s.tgCode
    match verifyRes with
    | .error m => ([Ev.setApiUrlS normalized, Ev.call (.verifyTelegramCode code)], some m)
    | .ok tok =>
      ([Ev.setApiUrlS normalized, Ev.call (.verifyTelegramCode code),
        Ev.setTokenS tok, Ev.setTokenState tok,
        Ev.setTgCode "", Ev.setTgInfo "", Ev.setTgStep "pin"], none)

/-- `handleLoginTelegram`. -/
def handleLoginTelegram (s : AppState) (verifyRes : Except String String) : List Ev :=
  withBusy false (handleLoginTelegramBody s verifyRes)

/-- The `try` block of `handleRequestTelegramCode`.  `reqRes` carries
`resp?.expiresInMs || 0` on success. -/
def handleRequestTelegramCodeBody (s : AppState) (now : Int)
    (reqRes : Except String Nat) : Body :=
  let normalized := normalizeApiUrl s.apiUrl
  if ¬ urlSchemeOk normalized then
    ([Ev.setApiUrlS normalized], some "La URL de la API debe empezar por http:// o https://")
  else
    let pin := jsTrim s.tgPin
    if pin = "" then
      ([Ev.setApiUrlS normalized], some "Introduce el PIN para enviar el código.")
    else
      match reqRes with
      | .error m => ([Ev.setApiUrlS normalized, Ev.call (.requestTelegramCode pin)], some m)
      | .ok expiresInMs =>
        let secs := (expiresInMs + 999) / 1000
        ([Ev.setApiUrlS normalized, Ev.call (.requestTelegramCode pin),
          Ev.setTgInfo (if secs ≠ 0 then "Código enviado. Caduca en ~" ++ toString secs ++ "s."
                        else "Código enviado."),
          Ev.setTgStep "code",
          Ev.setTgCooldownUntilMs (now + 1000)], none)

/-- `handleRequestTelegramCode`: like `withBusy`, but its catch clause first
parses a wait hint out of the message and, when positive, arms the local
cooldown before storing the error.  Both `Date.now()` reads are modelled by
the single instant `now`. -/
def handleRequestTelegramCode (s : AppState) (now : Int)
    (reqRes : Except String Nat) : List Ev :=
  let body := handleRequestTelegramCodeBody s now reqRes
  [Ev.setError "", Ev.setTgInfo "", Ev.setLoading true] ++ body.1 ++
  (match body.2 with
   | some m0 =>
     let msg := msgOrError m0
     let waitSec := parseWaitSecondsFromMessage msg
     (if 0 < waitSec then [Ev.setTgCooldownUntilMs (now + (waitSec : Int) * 1000)] else []) ++
     [Ev.setError msg]
   | none => []) ++
  [Ev.setLoading false]

/-- The `try` block of `saveEdit`: reject blank text, else update the edited
entry's list and reload it, then clear the edit cursor. -/
def saveEditBody (s : AppState) (updRes : Except String Unit) (listRes : ListRes) : Body :=
  let text := jsTrim s.editingText
  if text = "" then ([], some "El texto no puede estar vacío.")
  else if s.editingType = "record" then
    match updRes with
    | .error m => ([Ev.call (.updateRecord s.editingId text)], some m)
    | .ok _ =>
      let l := loadRecords listRes
      (Ev.call (.updateRecord s.editingId text) :: l.1 ++
        (if l.2.isNone then cancelEdit else []), l.2)
  else if s.editingType = "shortcut" then
    match updRes with
    | .error m => ([Ev.call (.updateShortcut s.editingId text)], some m)
    | .ok _ =>
      let l := loadShortcuts listRes
      (Ev.call (.updateShortcut s.editingId text) :: l.1 ++
        (if l.2.isNone then cancelEdit else []), l.2)
  else (cancelEdit, none)

/-- `saveEdit`. -/
def saveEdit (s : AppState) (updRes : Except String Unit) (listRes : ListRes) : List Ev :=
  withBusy false (saveEditBody s updRes listRes)

/-- The `try` block of `createRecordFromInput`. -/
def createRecordFromInputBody (s : AppState) (createRes : Except String Unit)
    (listRes : ListRes) : Body :=
  let text := jsTrim s.newRecordText
  if text = "" then ([], some "El texto no puede estar vacío.")
  else
    match createRes with
    | .error m => ([Ev.call (.createRecord text)], some m)
    | .ok _ =>
      let l := loadRecords listRes
      (Ev.call (.createRecord text) :: Ev.setNewRecordText "" ::
        Ev.setShouldRefocus "record" :: l.1, l.2)

/-- `createRecordFromInput`. -/
def createRecordFromInput (s : AppState) (createRes : Except String Unit)
    (listRes : ListRes) : List Ev :=
  withBusy false (createRecordFromInputBody s createRes listRes)

/-- The `try` block of `createShortcutFromInput`. -/
def createShortcutFromInputBody (s : AppState) (createRes : Except String Unit)
    (listRes : ListRes) : Body :=
  let text := jsTrim s.newShortcutText
  if text = "" then ([], some "El texto no puede estar vacío.")
  else
    match createRes with
    | .error m => ([Ev.call (.createShortcut text)], some m)
    | .ok _ =>
      let l := loadShortcuts listRes
      (Ev.call (.createShortcut text) :: Ev.setNewShortcutText "" ::
        Ev.setShouldRefocus "shortcut" :: l.1, l.2)

/-- `createShortcutFromInput`. -/
def createShortcutFromInput (s : AppState) (createRes : Except String Unit)
    (listRes : ListRes) : List Ev :=
  withBusy false (createShortcutFromInputBody s createRes listRes)

/-- The `try` block of `deleteRecord(id)` (after the confirm dialog): delete,
clear the edit cursor when the deleted entry was being edited, reload. -/
def deleteRecordBody (s : AppState) (id : String) (delRes : Except String Unit)
    (listRes : ListRes) : Body :=
  match delRes with
  | .error m => ([Ev.call (.deleteRecord id)], some m)
  | .ok _ =>
    let l := loadRecords listRes
    (Ev.call (.deleteRecord id) ::
      (if s.editingType = "record" ∧ s.editingId = id then cancelEdit else []) ++ l.1, l.2)

/-- `deleteRecord(id)`: nothing at all happens unless the user confirms. -/
def deleteRecordH (s : AppState) (id : String) (confirmed : Bool)
    (delRes : Except String Unit) (listRes : ListRes) : List Ev :=
  if ¬ confirmed then [] else withBusy false (deleteRecordBody s id delRes listRes)

/-- The `try` block of `deleteShortcut(id)` (after the confirm dialog). -/
def deleteShortcutBody (s : AppState) (id : String) (delRes : Except String Unit)
    (listRes : ListRes) : Body :=
  match delRes with
  | .error m => ([Ev.call (.deleteShortcut id)], some m)
  | .ok _ =>
    let l := loadShortcuts listRes
    (Ev.call (.deleteShortcut id) ::
      (if s.editingType = "shortcut" ∧ s.editingId = id then cancelEdit else []) ++ l.1, l.2)

/-- `deleteShortcut(id)`. -/
def deleteShortcutH (s : AppState) (id : String) (confirmed : Bool)
    (delRes : Except String Unit) (listRes : ListRes) : List Ev :=
  if ¬ confirmed then [] else withBusy false (deleteShortcutBody s id delRes listRes)

/-- The `try` block of `registerFromShortcut(text)`: reject blank text, else
create a record with the trimmed text and reload the records list. -/
def registerFromShortcutBody (text : String) (createRes : Except String Unit)
    (listRes : ListRes) : Body :=
  let t := jsTrim text
  if t = "" then ([], some "El texto del shortcut está vacío.")
  else
    match createRes with
    | .error m => ([Ev.call (.createRecord t)], some m)
    | .ok _ =>
      let l := loadRecords listRes
      (Ev.call (.createRecord t) :: l.1, l.2)

/-- `registerFromShortcut`. -/
def registerFromShortcut (text : String) (createRes : Except String Unit)
    (listRes : ListRes) : List Ev :=
  withBusy false (registerFromShortcutBody text createRes listRes)

/-- The `try` block of the initial post-login effect:
`Promise.all([loadRecords(), loadShortcuts()])`.  Both fetches run to
completion even when the other rejects, so both bodies' events appear (they
touch disjoint state, so their relative settle order is irrelevant to the
final state); `Promise.all` rejects with the first rejection, whose settle
order is not modelled: the records fetch's failure is taken first. -/
def initialLoadBody (recRes shRes : ListRes) : Body :=
  let r := loadRecords recRes
  let sh := loadShortcuts shRes
  (r.1 ++ sh.1,
   match r.2 with
   | some m => some m
   | none => sh.2)

/-- The initial post-login load effect. -/
def initialLoad (recRes shRes : ListRes) : List Ev :=
  withBusy false (initialLoadBody recRes shRes)

-- -------------------- Spec-side definitions --------------------

/-- All cleared pieces of UI state the spec lists for entering `loggedOut`:
both entity lists, the edit cursor, every draft input, and the cooldown. -/
def uiCleared (s : AppState) : Bool :=
  s.records.isEmpty && s.shortcuts.isEmpty &&
  s.editingType == "" && s.editingId == "" && s.editingText == "" &&
  s.newRecordText == "" && s.newShortcutText == "" &&
  s.username == "" && s.password == "" && s.tgPin == "" && s.tgCode == "" &&
  s.tgCooldownUntilMs == 0 && s.tgCooldownLeftSec == 0

/-- The watchdog timer as the (amended) spec describes it: decode the token's
payload; when it holds a nonzero expiry `e` (seconds), one timer with delay
`max 0 (e * 1000 - now - 5000)`; otherwise no timer. -/
def expiryDelaySpec (parse : String → Option JwtPayload) (token : String) (now : Int) :
    Option Int :=
  match decodeJwtPayload parse token with
  | none => none
  | some p =>
    match p.exp with
    | none => none
    | some e => if e = 0 then none else some (max 0 (e * 1000 - now - 5000))

/-- Does the trace begin by clearing the error and then raising the busy flag
(possibly also blanking the info line in between)? -/
def beginsBusy : List Ev → Bool
  | .setError "" :: .setLoading true :: _ => true
  | .setError "" :: .setTgInfo "" :: .setLoading true :: _ => true
  | _ => false

/-- An event that touches neither the error text nor the busy flag. -/
def quiet : Ev → Bool
  | .setError _ => false
  | .setLoading _ => false
  | _ => true

/-- The mutating actions of the spec's failure-handling clause, each with the
state it starts from and the outcomes of the network calls it performs. -/
inductive Action where
  | loginPassword (s : AppState) (r : Except String String)
  | loginTelegram (s : AppState) (r : Except String String)
  | createRec (s : AppState) (r1 : Except String Unit) (r2 : ListRes)
  | createSc (s : AppState) (r1 : Except String Unit) (r2 : ListRes)
  | save (s : AppState) (r1 : Except String Unit) (r2 : ListRes)
  | delRec (s : AppState) (id : String) (r1 : Except String Unit) (r2 : ListRes)
  | delSc (s : AppState) (id : String) (r1 : Except String Unit) (r2 : ListRes)
  | promote (text : String) (r1 : Except String Unit) (r2 : ListRes)
  | load (rr rs : ListRes)

/-- The trace the action's handler emits (deletions taken as confirmed). -/
def Action.trace : Action → List Ev
  | .loginPassword s r => handleLoginPassword s r
  | .loginTelegram s r => handleLoginTelegram s r
  | .createRec s r1 r2 => createRecordFromInput s r1 r2
  | .createSc s r1 r2 => createShortcutFromInput s r1 r2
  | .save s r1 r2 => saveEdit s r1 r2
  | .delRec s id r1 r2 => deleteRecordH s id true r1 r2
  | .delSc s id r1 r2 => deleteShortcutH s id true r1 r2
  | .promote text r1 r2 => registerFromShortcut text r1 r2
  | .load rr rs => initialLoad rr rs

/-- The exception (if any) escaping the action's `try` block. -/
def Action.failure : Action → Option String
  | .loginPassword s r => (handleLoginPasswordBody s r).2
  | .loginTelegram s r => (handleLoginTelegramBody s r).2
  | .createRec s r1 r2 => (createRecordFromInputBody s r1 r2).2
  | .createSc s r1 r2 => (createShortcutFromInputBody s r1 r2).2
  | .save s r1 r2 => (saveEditBody s r1 r2).2
  | .delRec s id r1 r2 => (deleteRecordBody s id r1 r2).2
  | .delSc s id r1 r2 => (deleteShortcutBody s id r1 r2).2
  | .promote text r1 r2 => (registerFromShortcutBody text r1 r2).2
  | .load rr rs => (initialLoadBody rr rs).2

-- -------------------- Helper lemmas --------------------

theorem run_append (s : AppState) (t1 t2 : List Ev) :
    run s (t1 ++ t2) = run (run s t1) t2 :=
  List.foldl_append applyEv s t1 t2

theorem run_quiet (t : List Ev) :
    ∀ s : AppState, t.all quiet = true →
      (run s t).error = s.error ∧ (run s t).loading = s.loading := by
  induction t with
  | nil => intro s _; exact ⟨rfl, rfl⟩
  | cons e rest ih =>
    intro s h
    rw [List.all_cons, Bool.and_eq_true] at h
    have hstep : run s (e :: rest) = run (applyEv s e) rest := rfl
    have hfields : (applyEv s e).error = s.error ∧ (applyEv s e).loading = s.loading := by
      cases e <;> simp_all [applyEv, quiet]
    rw [hstep]
    obtain ⟨h1, h2⟩ := ih (applyEv s e) h.2
    exact ⟨h1.trans hfields.1, h2.trans hfields.2⟩

theorem run_withBusy (s : AppState) (ci : Bool) (body : Body)
    (hq : body.1.all quiet = true) :
    (run s (withBusy ci body)).loading = false ∧
    (run s (withBusy ci body)).error =
      (match body.2 with | some m => m | none => "") := by
  have key : ∀ s2 : AppState, s2.error = "" → s2.loading = true →
      (run s2 (body.1 ++ ((match body.2 with
        | some m => [Ev.setError m]
        | none => []) ++ [Ev.setLoading false]))).loading = false ∧
      (run s2 (body.1 ++ ((match body.2 with
        | some m => [Ev.setError m]
        | none => []) ++ [Ev.setLoading false]))).error =
        (match body.2 with | some m => m | none => "") := by
    intro s2 he hl
    rw [run_append]
    obtain ⟨he3, _⟩ := run_quiet body.1 s2 hq
    cases body.2 with
    | none => exact ⟨rfl, he3.trans he⟩
    | some m => exact ⟨rfl, rfl⟩
  cases ci with
  | false =>
    have hshape : withBusy false body =
        Ev.setError "" :: Ev.setLoading true ::
          (body.1 ++ ((match body.2 with
            | some m => [Ev.setError m]
            | none => []) ++ [Ev.setLoading false])) := by
      simp [withBusy]
    rw [hshape]
    exact key _ rfl rfl
  | true =>
    have hshape : withBusy true body =
        Ev.setError "" :: Ev.setTgInfo "" :: Ev.setLoading true ::
          (body.1 ++ ((match body.2 with
            | some m => [Ev.setError m]
            | none => []) ++ [Ev.setLoading false])) := by
      simp [withBusy]
    rw [hshape]
    exact key _ rfl rfl

theorem beginsBusy_withBusy (ci : Bool) (body : Body) :
    beginsBusy (withBusy ci body) = true := by
  cases ci <;> rfl

theorem notify_ok (handlers : List Handler) (msg : String) :
    notifyUnauthorized handlers msg =
      .ok (handlers.map fun h => (h, msg, invokeHandler h msg)) := by
  induction handlers with
  | nil => rfl
  | cons h rest ih => simp [notifyUnauthorized, ih]

theorem loadRecords_quiet (r : ListRes) : (loadRecords r).1.all quiet = true := by
  cases r <;> rfl

theorem loadShortcuts_quiet (r : ListRes) : (loadShortcuts r).1.all quiet = true := by
  cases r <;> rfl

theorem all_quiet_append (t1 t2 : List Ev) (h1 : t1.all quiet = true)
    (h2 : t2.all quiet = true) : (t1 ++ t2).all quiet = true := by
  rw [List.all_append, h1, h2]; rfl

theorem handleLoginPasswordBody_quiet (s : AppState) (r : Except String String) :
    (handleLoginPasswordBody s r).1.all quiet = true := by
  by_cases h : urlSchemeOk (normalizeApiUrl s.apiUrl) = true <;>
    cases r <;> simp [handleLoginPasswordBody, h, quiet]

theorem handleLoginTelegramBody_quiet (s : AppState) (r : Except String String) :
    (handleLoginTelegramBody s r).1.all quiet = true := by
  by_cases h : urlSchemeOk (normalizeApiUrl s.apiUrl) = true <;>
    cases r <;> simp [handleLoginTelegramBody, h, quiet]

theorem createRecordFromInputBody_quiet (s : AppState) (r1 : Except String Unit)
    (r2 : ListRes) : (createRecordFromInputBody s r1 r2).1.all quiet = true := by
  by_cases h : jsTrim s.newRecordText = "" <;> cases r1 <;> cases r2 <;>
    simp [createRecordFromInputBody, h, quiet, loadRecords]

theorem createShortcutFromInputBody_quiet (s : AppState) (r1 : Except String Unit)
    (r2 : ListRes) : (createShortcutFromInputBody s r1 r2).1.all quiet = true := by
  by_cases h : jsTrim s.newShortcutText = "" <;> cases r1 <;> cases r2 <;>
    simp [createShortcutFromInputBody, h, quiet, loadShortcuts]

theorem saveEditBody_quiet (s : AppState) (r1 : Except String Unit) (r2 : ListRes) :
    (saveEditBody s r1 r2).1.all quiet = true := by
  by_cases h1 : jsTrim s.editingText = "" <;>
    by_cases h2 : s.editingType = "record" <;>
      by_cases h3 : s.editingType = "shortcut" <;>
        cases r1 <;> cases r2 <;>
          simp [saveEditBody, h1, h2, h3, quiet, loadRecords, loadShortcuts, cancelEdit]

theorem deleteRecordBody_quiet (s : AppState) (id : String) (r1 : Except String Unit)
    (r2 : ListRes) : (deleteRecordBody s id r1 r2).1.all quiet = true := by
  by_cases h : s.editingType = "record" ∧ s.editingId = id <;> cases r1 <;> cases r2 <;>
    simp [deleteRecordBody, h, quiet, loadRecords, cancelEdit]

theorem deleteShortcutBody_quiet (s : AppState) (id : String) (r1 : Except String Unit)
    (r2 : ListRes) : (deleteShortcutBody s id r1 r2).1.all quiet = true := by
  by_cases h : s.editingType = "shortcut" ∧ s.editingId = id <;> cases r1 <;> cases r2 <;>
    simp [deleteShortcutBody, h, quiet, loadShortcuts, cancelEdit]

theorem registerFromShortcutBody_quiet (text : String) (r1 : Except String Unit)
    (r2 : ListRes) : (registerFromShortcutBody text r1 r2).1.all quiet = true := by
  by_cases h : jsTrim text = "" <;> cases r1 <;> cases r2 <;>
    simp [registerFromShortcutBody, h, quiet, loadRecords]

theorem initialLoadBody_quiet (rr rs : ListRes) :
    (initialLoadBody rr rs).1.all quiet = true := by
  unfold initialLoadBody
  exact all_quiet_append _ _ (loadRecords_quiet rr) (loadShortcuts_quiet rs)

theorem run_doLogout (s : AppState) (msg : String) :
    run s (doLogout msg) =
      { s with storedToken := "", token := "", error := msg,
               username := "", password := "",
               tgPin := "", tgCode := "", tgInfo := "", tgStep := "pin",
               tgCooldownUntilMs := 0, tgCooldownLeftSec := 0,
               records := [], shortcuts := [],
               editingType := "", editingId := "", editingText := "",
               newRecordText := "", newShortcutText := "", shouldRefocus := "" } :=
  rfl

-- -------------------- Claim theorems --------------------

/-- C8: every mutating action (password and telegram login, create, update
via `saveEdit`, delete, promote, initial post-login load) first clears the
previous error and raises the busy flag; after it completes the busy flag is
down again regardless of outcome — in particular for the initial load when
either of its two fetches fails — and the stored error text is exactly the
failure message on failure, empty on success. -/
theorem claim_C8_busy_flag_discipline (a : Action) (s : AppState) :
    beginsBusy a.trace = true ∧
    (run s a.trace).loading = false ∧
    (run s a.trace).error = (match a.failure with | some m => m | none => "") := by
  obtain ⟨ci, body, ht, hf, hq⟩ :
      ∃ ci body, a.trace = withBusy ci body ∧ a.failure = body.2 ∧
        body.1.all quiet = true := by
    cases a with
    | loginPassword s r =>
      exact ⟨true, handleLoginPasswordBody s r, rfl, rfl, handleLoginPasswordBody_quiet s r⟩
    | loginTelegram s r =>
      exact ⟨false, handleLoginTelegramBody s r, rfl, rfl, handleLoginTelegramBody_quiet s r⟩
    | createRec s r1 r2 =>
      exact ⟨false, createRecordFromInputBody s r1 r2, rfl, rfl,
        createRecordFromInputBody_quiet s r1 r2⟩
    | createSc s r1 r2 =>
      exact ⟨false, createShortcutFromInputBody s r1 r2, rfl, rfl,
        createShortcutFromInputBody_quiet s r1 r2⟩
    | save s r1 r2 =>
      exact ⟨false, saveEditBody s r1 r2, rfl, rfl, saveEditBody_quiet s r1 r2⟩
    | delRec s id r1 r2 =>
      exact ⟨false, deleteRecordBody s id r1 r2, by simp [Action.trace, deleteRecordH], rfl,
        deleteRecordBody_quiet s id r1 r2⟩
    | delSc s id r1 r2 =>
      exact ⟨false, deleteShortcutBody s id r1 r2, by simp [Action.trace, deleteShortcutH], rfl,
        deleteShortcutBody_quiet s id r1 r2⟩
    | promote text r1 r2 =>
      exact ⟨false, registerFromShortcutBody text r1 r2, rfl, rfl,
        registerFromShortcutBody_quiet text r1 r2⟩
    | load rr rs =>
      exact ⟨false, initialLoadBody rr rs, rfl, rfl, initialLoadBody_quiet rr rs⟩
  rw [ht, hf]
  exact ⟨beginsBusy_withBusy ci body, (run_withBusy s ci body hq).1,
    (run_withBusy s ci body hq).2⟩

/-- C9: notifying the unauthorized bus invokes every registered subscriber
with the message and never itself throws, even when subscribers throw (their
exceptions are swallowed, so later subscribers still run); and after the
unsubscribe handle returned by `onUnauthorized` is invoked, the removed
subscriber appears in no later notification. -/
theorem claim_C9_unauthorized_bus (handlers hs : List Handler) (fn : Handler)
    (msg : String) :
    notifyUnauthorized handlers msg =
      .ok (handlers.map fun h => (h, msg, invokeHandler h msg)) ∧
    (unsubscribe (onUnauthorized hs fn) fn).all (fun h => h != fn) = true ∧
    ((unsubscribe (onUnauthorized hs fn) fn).map
        (fun h => (h, msg, invokeHandler h msg))).all (fun e => e.1 != fn) = true := by
  have h2 : (unsubscribe (onUnauthorized hs fn) fn).all (fun h => h != fn) = true := by
    simp [unsubscribe, List.all_eq_true, List.mem_filter]
  refine ⟨notify_ok handlers msg, h2, ?_⟩
  rw [List.all_eq_true] at h2 ⊢
  intro e he
  rw [List.mem_map] at he
  obtain ⟨x, hx, hxe⟩ := he
  rw [← hxe]
  exact h2 x hx

/-- C4: each of the three transitions to the logged-out state — the explicit
logout button, the unauthorized-event subscriber, and the expiry timer's
callback — empties both entity lists, resets the edit cursor, empties every
draft input (new-record text, new-shortcut text, username, password, pin,
code), zeroes the cooldown state, and clears the token. -/
theorem claim_C4_logout_clears_state (s : AppState) (msg : String) :
    uiCleared (run s handleLogout) = true ∧
    uiCleared (run s (unauthorizedLogout msg)) = true ∧
    uiCleared (run s expiryFire) = true ∧
    (run s handleLogout).token = "" ∧
    (run s (unauthorizedLogout msg)).token = "" ∧
    (run s expiryFire).token = "" :=
  ⟨rfl, rfl, rfl, rfl, rfl, rfl⟩

/-- C5 (amended): the watchdog effect equals its specification: for a token
whose decoded payload holds a nonzero expiry `e` (seconds), exactly one timer
is armed with delay `max 0 (e * 1000 - now - 5000)` — i.e. five seconds before
the expiry instant — and when the token is unparseable, lacks an `exp`, or its
`exp` is `0` (falsy), no timer is armed; the timer's callback forces logout.
The claim as frozen fails only at `exp = 0` (see the counterexample). -/
theorem claim_C5_expiry_watchdog (parse : String → Option JwtPayload)
    (token : String) (now : Int) (s : AppState) :
    expiryEffect parse token now = expiryDelaySpec parse token now ∧
    isLogged (run s expiryFire) = false := by
  constructor
  · by_cases ht : token = ""
    · subst ht
      have hdec : decodeJwtPayload parse "" = none := rfl
      simp [expiryEffect, expiryDelaySpec, hdec]
    · cases hd : decodeJwtPayload parse token with
      | none => simp [expiryEffect, expiryDelaySpec, getJwtExpMs, hd, ht]
      | some p =>
        cases he : p.exp with
        | none => simp [expiryEffect, expiryDelaySpec, getJwtExpMs, hd, he, ht]
        | some e =>
          by_cases h0 : e = 0 <;>
            simp [expiryEffect, expiryDelaySpec, getJwtExpMs, hd, he, h0, ht]
  · rfl

/-- A base64-and-JSON decoding step whose payload is exactly an `exp` of `0`
seconds (the Unix epoch). -/
def zeroExpParse : String → Option JwtPayload := fun _ => some ⟨some 0⟩

/-- C5 counterexample: a token whose decoded payload does contain an expiry
instant (`exp = 0`), for which the claim demands a timer with delay
`max 0 (0 * 1000 - now - 5000) = 0`, yet the code arms no timer at all
(`!payload?.exp` treats `0` as absent). -/
theorem claim_C5_counterexample :
    decodeJwtPayload zeroExpParse "h.p" = some ⟨some 0⟩ ∧
    expiryEffect zeroExpParse "h.p" 1000000 = none ∧
    some (max 0 ((0 : Int) * 1000 - 1000000 - 5000)) ≠ (none : Option Int) :=
  ⟨rfl, rfl, by decide⟩

/-- C1: with an API URL configured, the request wrapper on HTTP 401 clears the
stored token, invokes every registered unauthorized subscriber with
`data?.error` (the server's message, when it is a nonempty string) or the
default `"Token inválido o caducado."`, and throws that same message; on every
other status the stored token is untouched and no subscriber is invoked —
2xx resolves with the data, and other statuses throw `data?.error` or a
generic HTTP-status message. -/
theorem claim_C1_request_401 (st : Store) (handlers : List Handler)
    (resp : HttpResponse) (h : st.storedApiUrl ≠ "") :
    request st handlers resp =
      (let data := if resp.contentTypeJson then resp.body else none
       if resp.status = 401 then
         let msg := jsOrDefault (dataError data) "Token inválido o caducado."
         ({ st with storedToken := "" },
          handlers.map (fun hd => (hd, msg, invokeHandler hd msg)),
          .thrown msg)
       else if resOk resp.status then (st, [], .ok data)
       else
         (st, [],
          .thrown (jsOrDefault (dataError data) ("Error HTTP " ++ toString resp.status)))) := by
  simp only [request, if_neg h, notify_ok]

/-- C1 witness: a concrete 401 response with a server-provided message, three
subscribers among which the second throws. -/
theorem claim_C1_request_401_witness :
    request ⟨"tok0", "https://x"⟩ [⟨1, false⟩, ⟨2, true⟩, ⟨3, false⟩]
        ⟨401, true, some ⟨some "Sesión caducada."⟩⟩ =
      (let data := if (⟨401, true, some ⟨some "Sesión caducada."⟩⟩ : HttpResponse).contentTypeJson
                   then (⟨401, true, some ⟨some "Sesión caducada."⟩⟩ : HttpResponse).body else none
       if (⟨401, true, some ⟨some "Sesión caducada."⟩⟩ : HttpResponse).status = 401 then
         let msg := jsOrDefault (dataError data) "Token inválido o caducado."
         ({ (⟨"tok0", "https://x"⟩ : Store) with storedToken := "" },
          [⟨1, false⟩, ⟨2, true⟩, ⟨3, false⟩].map (fun hd => (hd, msg, invokeHandler hd msg)),
          .thrown msg)
       else if resOk (⟨401, true, some ⟨some "Sesión caducada."⟩⟩ : HttpResponse).status then
         ((⟨"tok0", "https://x"⟩ : Store), [], .ok data)
       else
         ((⟨"tok0", "https://x"⟩ : Store), [],
          .thrown (jsOrDefault (dataError data)
            ("Error HTTP " ++ toString (⟨401, true, some ⟨some "Sesión caducada."⟩⟩ : HttpResponse).status)))) :=
  claim_C1_request_401 ⟨"tok0", "https://x"⟩ [⟨1, false⟩, ⟨2, true⟩, ⟨3, false⟩]
    ⟨401, true, some ⟨some "Sesión caducada."⟩⟩ (by decide)

/-- A state sitting at the telegram code-entry step: valid API URL, a pin and
a six-digit code typed in. -/
def stateC2 : AppState :=
  { apiUrl := "https://x", tgStep := "code", tgCode := "123456", tgPin := "9999" }

/-- C2 counterexample: when `verifyTelegramCode` rejects, the controller stays
on the code-entry step (`tgStep` remains `"code"`, not `"pin"`) and the entered
code is kept, contradicting the claim that failure returns to pin entry with
the code cleared. -/
theorem claim_C2_counterexample :
    (run stateC2 (handleLoginTelegram stateC2 (.error "Código inválido"))).tgStep = "code" ∧
    (run stateC2 (handleLoginTelegram stateC2 (.error "Código inválido"))).tgCode = "123456" ∧
    ("code" : String) ≠ "pin" ∧ ("123456" : String) ≠ "" :=
  ⟨rfl, rfl, by decide, by decide⟩

/-- C2 (amended): with a valid API URL, a failed two-step code verification
leaves the controller on the code-entry step with the entered code preserved —
only the error is recorded — and the pin-step state (pin, cooldown) is
preserved; on success the controller transitions to logged-in (token set,
`isLogged` iff the token is nonempty) and resets the sub-flow to pin entry
with the code cleared. -/
theorem claim_C2_two_step_login (s : AppState) (m tok : String)
    (h : urlSchemeOk (normalizeApiUrl s.apiUrl) = true) :
    ((run s (handleLoginTelegram s (.error m))).tgStep = s.tgStep ∧
     (run s (handleLoginTelegram s (.error m))).tgCode = s.tgCode ∧
     (run s (handleLoginTelegram s (.error m))).tgPin = s.tgPin ∧
     (run s (handleLoginTelegram s (.error m))).tgCooldownUntilMs = s.tgCooldownUntilMs ∧
     (run s (handleLoginTelegram s (.error m))).error = m ∧
     (run s (handleLoginTelegram s (.error m))).token = s.token ∧
     (run s (handleLoginTelegram s (.error m))).loading = false) ∧
    ((run s (handleLoginTelegram s (.ok tok))).token = tok ∧
     isLogged (run s (handleLoginTelegram s (.ok tok))) = (tok != "") ∧
     (run s (handleLoginTelegram s (.ok tok))).tgCode = "" ∧
     (run s (handleLoginTelegram s (.ok tok))).tgStep = "pin" ∧
     (run s (handleLoginTelegram s (.ok tok))).tgInfo = "" ∧
     (run s (handleLoginTelegram s (.ok tok))).tgPin = s.tgPin ∧
     (run s (handleLoginTelegram s (.ok tok))).tgCooldownUntilMs = s.tgCooldownUntilMs) := by
  constructor <;>
    simp [handleLoginTelegram, handleLoginTelegramBody, withBusy, run, applyEv, h, isLogged]

/-- C2 witness: at `stateC2`, failure keeps the entered code and success
returns the sub-flow to the pin step. -/
theorem claim_C2_witness :
    (run stateC2 (handleLoginTelegram stateC2 (.error "mal código"))).tgCode = stateC2.tgCode ∧
    (run stateC2 (handleLoginTelegram stateC2 (.ok "tok123"))).tgStep = "pin" :=
  ⟨(claim_C2_two_step_login stateC2 "mal código" "tok123" (by decide)).1.2.1,
   (claim_C2_two_step_login stateC2 "mal código" "tok123" (by decide)).2.2.2.2.1⟩

/-- C3 counterexample: promoting a shortcut whose text `" hola "` carries
surrounding whitespace issues `createRecord` with the trimmed text `"hola"`,
which is not identical to the shortcut's text. -/
theorem claim_C3_counterexample :
    callsOf (registerFromShortcut " hola " (.ok ()) (.ok (some []))) =
      [ApiCall.createRecord "hola", ApiCall.listRecords] ∧
    ApiCall.createRecord "hola" ≠ ApiCall.createRecord " hola " :=
  ⟨rfl, by decide⟩

/-- C3 (amended): for every shortcut whose trimmed text is non-empty, the
promote operation issues exactly one `createRecord` call carrying the
shortcut's text trimmed of surrounding whitespace, followed — when the create
succeeds — by exactly one `listRecords` reload and nothing else; it issues no
call that reads or mutates any shortcut, and the shortcuts list is unchanged. -/
theorem claim_C3_promote (s : AppState) (text : String) (r1 : Except String Unit)
    (r2 : ListRes) (h : jsTrim text ≠ "") :
    callsOf (registerFromShortcut text r1 r2) =
      ApiCall.createRecord (jsTrim text) ::
        (match r1 with | .ok _ => [ApiCall.listRecords] | .error _ => []) ∧
    (callsOf (registerFromShortcut text r1 r2)).all
      (fun c => ! c.touchesShortcuts) = true ∧
    (run s (registerFromShortcut text r1 r2)).shortcuts = s.shortcuts := by
  cases r1 <;> cases r2 <;>
    simp [registerFromShortcut, registerFromShortcutBody, withBusy, callsOf, run, applyEv,
      loadRecords, h, ApiCall.touchesShortcuts]

/-- C3 witness: promoting `" hola "` with both calls succeeding. -/
theorem claim_C3_witness :
    callsOf (registerFromShortcut " hola " (.ok ()) (.ok (some []))) =
      ApiCall.createRecord (jsTrim " hola ") :: [ApiCall.listRecords] ∧
    (run {} (registerFromShortcut " hola " (.ok ()) (.ok (some [])))).shortcuts =
      AppState.shortcuts {} :=
  ⟨(claim_C3_promote {} " hola " (.ok ()) (.ok (some [])) (by decide)).1,
   (claim_C3_promote {} " hola " (.ok ()) (.ok (some [])) (by decide)).2.2⟩

/-- C6: when the new-record draft, the new-shortcut draft, or the edit draft
is empty or whitespace-only, the corresponding action (create record, create
shortcut, save edit) stores the validation error `"El texto no puede estar
vacío."` without issuing any API call, and both displayed lists are
unchanged. -/
theorem claim_C6_blank_text_rejected (s : AppState) (r1 u1 : Except String Unit)
    (r2 r3 r4 : ListRes)
    (h1 : jsTrim s.newRecordText = "") (h2 : jsTrim s.newShortcutText = "")
    (h3 : jsTrim s.editingText = "") :
    ((createRecordFromInput s r1 r2).all (fun e => ! e.isCall) = true ∧
     (run s (createRecordFromInput s r1 r2)).error = "El texto no puede estar vacío." ∧
     (run s (createRecordFromInput s r1 r2)).records = s.records ∧
     (run s (createRecordFromInput s r1 r2)).shortcuts = s.shortcuts) ∧
    ((createShortcutFromInput s r1 r3).all (fun e => ! e.isCall) = true ∧
     (run s (createShortcutFromInput s r1 r3)).error = "El texto no puede estar vacío." ∧
     (run s (createShortcutFromInput s r1 r3)).records = s.records ∧
     (run s (createShortcutFromInput s r1 r3)).shortcuts = s.shortcuts) ∧
    ((saveEdit s u1 r4).all (fun e => ! e.isCall) = true ∧
     (run s (saveEdit s u1 r4)).error = "El texto no puede estar vacío." ∧
     (run s (saveEdit s u1 r4)).records = s.records ∧
     (run s (saveEdit s u1 r4)).shortcuts = s.shortcuts) := by
  refine ⟨?_, ?_, ?_⟩ <;>
    simp [createRecordFromInput, createRecordFromInputBody, createShortcutFromInput,
      createShortcutFromInputBody, saveEdit, saveEditBody, withBusy, run, applyEv,
      h1, h2, h3, Ev.isCall]

/-- C6 witness: the empty state (every draft empty) with arbitrary concrete
call outcomes. -/
theorem claim_C6_witness :
    (run {} (createRecordFromInput {} (.ok ()) (.ok none))).error =
      "El texto no puede estar vacío." ∧
    (run {} (saveEdit {} (.ok ()) (.ok none))).records = AppState.records {} :=
  ⟨(claim_C6_blank_text_rejected {} (.ok ()) (.ok ()) (.ok none) (.ok none) (.ok none)
      (by decide) (by decide) (by decide)).1.2.1,
   (claim_C6_blank_text_rejected {} (.ok ()) (.ok ()) (.ok none) (.ok none) (.ok none)
      (by decide) (by decide) (by decide)).2.2.2.2.1⟩

/-- A state at the pin step with a valid API URL and a nonblank pin. -/
def stateTg : AppState := { apiUrl := "https://x", tgPin := "1234" }

/-- C7 counterexample: the failure message `"0s"` does contain a digit
sequence followed by `s` (with `N = 0`), yet no cooldown is started: the
deadline stays `0` instead of becoming `now + 0 * 1000 = 7777`. -/
theorem claim_C7_counterexample :
    matchWaitAt "0s".data = some 0 ∧
    (run stateTg (handleRequestTelegramCode stateTg 7777 (.error "0s"))).tgCooldownUntilMs = 0 ∧
    (0 : Int) ≠ 7777 + 0 * 1000 :=
  ⟨rfl, rfl, by decide⟩

/-- C7 (amended): on a failed request-code call (with a valid URL and nonblank
pin), let `N` be the first match of `(\d+)\s*s/i` in the error message
(`0` when there is none): when `N > 0` the cooldown deadline becomes
`now + N` seconds and otherwise (no match, or a matched `N = 0`) it is left
unchanged; the error is stored, the busy flag ends cleared, and afterwards the
send control is disabled exactly while `Date.now()` is before the deadline;
the countdown shown at the moment of failure is `N`. -/
theorem claim_C7_rate_limit_cooldown (s : AppState) (now : Int) (m : String)
    (h1 : urlSchemeOk (normalizeApiUrl s.apiUrl) = true)
    (h2 : jsTrim s.tgPin ≠ "") :
    (run s (handleRequestTelegramCode s now (.error m))).tgCooldownUntilMs =
      (if 0 < parseWaitSecondsFromMessage (msgOrError m) then
        now + (parseWaitSecondsFromMessage (msgOrError m) : Int) * 1000
       else s.tgCooldownUntilMs) ∧
    (run s (handleRequestTelegramCode s now (.error m))).error = msgOrError m ∧
    (run s (handleRequestTelegramCode s now (.error m))).loading = false ∧
    (run s (handleRequestTelegramCode s now (.error m))).tgPin = s.tgPin ∧
    (∀ t : Int, tgSendDisabled (run s (handleRequestTelegramCode s now (.error m))) t =
      decide (t < (run s (handleRequestTelegramCode s now (.error m))).tgCooldownUntilMs)) ∧
    cooldownTick (now + (parseWaitSecondsFromMessage (msgOrError m) : Int) * 1000) now =
      parseWaitSecondsFromMessage (msgOrError m) := by
  have htick : cooldownTick (now + (parseWaitSecondsFromMessage (msgOrError m) : Int) * 1000) now =
      parseWaitSecondsFromMessage (msgOrError m) := by
    simp only [cooldownTick]
    omega
  by_cases hw : 0 < parseWaitSecondsFromMessage (msgOrError m) <;>
    simp [handleRequestTelegramCode, handleRequestTelegramCodeBody, run, applyEv,
      tgSendDisabled, h1, h2, hw, htick]

/-- C7 witness: failing with `"Espera 30s"` at `now = 7777` arms the cooldown
deadline `37777`. -/
theorem claim_C7_witness :
    (run stateTg (handleRequestTelegramCode stateTg 7777
      (.error "Espera 30s"))).tgCooldownUntilMs = 37777 :=
  ((claim_C7_rate_limit_cooldown stateTg 7777 "Espera 30s" (by decide) (by decide)).1).trans
    (by decide)

/-- C10: on a successful request-code call (valid URL, nonblank pin) the
controller unconditionally arms a one-second cooldown — the deadline becomes
`now + 1000` — and moves to the code step with no error and the busy flag
cleared, so the send control is disabled exactly until one second after the
request. -/
theorem claim_C10_success_one_second_cooldown (s : AppState) (now : Int) (ms : Nat)
    (h1 : urlSchemeOk (normalizeApiUrl s.apiUrl) = true)
    (h2 : jsTrim s.tgPin ≠ "") :
    (run s (handleRequestTelegramCode s now (.ok ms))).tgCooldownUntilMs = now + 1000 ∧
    (run s (handleRequestTelegramCode s now (.ok ms))).tgStep = "code" ∧
    (run s (handleRequestTelegramCode s now (.ok ms))).error = "" ∧
    (run s (handleRequestTelegramCode s now (.ok ms))).loading = false ∧
    (∀ t : Int, tgSendDisabled (run s (handleRequestTelegramCode s now (.ok ms))) t =
      decide (t < now + 1000)) := by
  simp [handleRequestTelegramCode, handleRequestTelegramCodeBody, run, applyEv,
    tgSendDisabled, h1, h2]

/-- C10 witness: a successful request at `now = 5000` arms the deadline `6000`. -/
theorem claim_C10_witness :
    (run stateTg (handleRequestTelegramCode stateTg 5000 (.ok 120000))).tgCooldownUntilMs =
      6000 :=
  ((claim_C10_success_one_second_cooldown stateTg 5000 120000 (by decide) (by decide)).1).trans
    (by decide)

end RecordsFront
